import Mathlib

/-!
Verification of the SampleApp queue-and-worker core of the CppMicroAgent
repository: the four queue-worker lanes (`IntfA_Tx`, `IntfA_Rx`, `IntfB_Tx`,
`IntfB_Rx`), the two interface facades (`InterfaceA`, `InterfaceB`) and the
supervisor (`ProgramApp`), shallowly embedded in Lean.

A lane's mutable state is `{ bStart : Bool, vec : List Item }`; the mutex is
not modelled (each operation is a single atomic step in the embedding, which
matches the source's discipline of mutating `vec` only under the lock).  The
detached worker thread's loop body is modelled as one step function applied
externally.  C++ member functions become functions from the state (and the
by-reference argument) to the updated state (and the written-back argument).
-/

/-- Modelled from the spec: the header `common.h` defining `structA` is not in
the source tree.  Per the spec's data model the payload has one signed numeric
field and one floating-point field, used only by the transform rules.  The lane
code pins the types: `IntfA_Tx::addToQueue` computes `data.a1 % 2`, so `a1` is
an integral field (modelled as `Int`); `data.a2 < 0` and `data.a2 += 1.0f` fit
the floating-point field `a2`, modelled exactly as a rational. -/
structure structA where
  a1 : Int
  a2 : Rat
deriving Repr, DecidableEq

/-- Modelled from the spec: the header `common.h` defining `structB` is not in
the source tree.  No lane code inspects its fields (the B lanes treat it as an
opaque value that is copied); per the spec it carries one signed numeric field
and one floating-point field. -/
structure structB where
  b1 : Int
  b2 : Rat
deriving Repr, DecidableEq

namespace IntfA_Tx

/-- State of class `IntfA_Tx` (TestProjects/SampleApp/src/InterfaceA/IntfA_tx.h):
`bool bStart; std::vector<structA> vec;` (the mutex is not modelled). -/
structure State where
  bStart : Bool
  vec : List structA
deriving Repr, DecidableEq

/-- Embeds `IntfA_Tx::IntfA_Tx() : bStart{ false }, vec{} {}`. -/
def construct : State := { bStart := false, vec := [] }

/-- Embeds `IntfA_Tx::init`: `vec.clear(); bStart = true;` then spawns the detached
worker thread and returns `true`.  The spawned worker is modelled separately by
`processStep`. -/
def init (s : State) : State × Bool :=
  ({ s with vec := [], bStart := true }, true)

/-- Embeds `IntfA_Tx::close`: `bStart = false; return true;`. -/
def close (s : State) : State × Bool :=
  ({ s with bStart := false }, true)

/-- Embeds `IntfA_Tx::addToQueue(structA& data)` (IntfA_tx.h, lines 16-28): under the
lock, if `data.a1 % 2 == 0` then `data.a2 += 1.0f` else `data.a2 -= 1.0f`, then
`vec.push_back(data)`.  The second component is the value written back through
the by-reference argument.  (C++ truncated `%` and Lean's `Int.emod` agree on
the test `== 0`: both hold exactly for even `a1`.) -/
def addToQueue (s : State) (data : structA) : State × structA :=
  let data2 := if data.a1 % 2 = 0
    then { data with a2 := data.a2 + 1 }
    else { data with a2 := data.a2 - 1 }
  ({ s with vec := s.vec ++ [data2] }, data2)

/-- Embeds `IntfA_Tx::getStats`: `return static_cast<int>(vec.size());`. -/
def getStats (s : State) : Int := (s.vec.length : Int)

/-- One iteration of the worker loop `IntfA_Tx::process`: while `bStart` —
lock; if `vec` non-empty take `vec.front()` and `vec.erase(vec.begin())`;
unlock; sleep 500 ms.  The second component is the discarded `firstElement`
(`none` when the loop body did not run or found the buffer empty). -/
def processStep (s : State) : State × Option structA :=
  if s.bStart then
    match s.vec with
    | [] => (s, none)
    | x :: t => ({ s with vec := t }, some x)
  else (s, none)

end IntfA_Tx

namespace IntfA_Rx

/-- State of class `IntfA_Rx` (sampleCpp/SampleApp/src/InterfaceA/IntfA_rx.h,
implementation TestProjects/SampleApp/src/InterfaceA/IntfA_rx.cpp). -/
structure State where
  bStart : Bool
  vec : List structA
deriving Repr, DecidableEq

/-- Embeds `IntfA_Rx::IntfA_Rx() : bStart{ false }, vec{} {}`. -/
def construct : State := { bStart := false, vec := [] }

/-- Embeds `IntfA_Rx::init`: `vec.clear(); bStart = true;` then spawns the detached
worker thread and returns `true`. -/
def init (s : State) : State × Bool :=
  ({ s with vec := [], bStart := true }, true)

/-- Embeds `IntfA_Rx::close`: `bStart = false; return true;`. -/
def close (s : State) : State × Bool :=
  ({ s with bStart := false }, true)

/-- Embeds `IntfA_Rx::addToQueue(structA& data)` (IntfA_rx.cpp, lines 38-50): under
the lock, if `data.a2 < 0` then `data.a1 += 1.0f` else `data.a1 -= 1.0f`, then
`vec.push_back(data)`.  The second component is the value written back through
the by-reference argument. -/
def addToQueue (s : State) (data : structA) : State × structA :=
  let data2 := if data.a2 < 0
    then { data with a1 := data.a1 + 1 }
    else { data with a1 := data.a1 - 1 }
  ({ s with vec := s.vec ++ [data2] }, data2)

/-- Embeds `IntfA_Rx::getStats`: `return static_cast<int>(vec.size());`. -/
def getStats (s : State) : Int := (s.vec.length : Int)

/-- One iteration of the worker loop `IntfA_Rx::process` (IntfA_rx.cpp, lines
26-36): while `bStart` — lock; if `vec` non-empty take `vec.front()` and
`vec.erase(vec.begin())`; unlock; sleep 500 ms. -/
def processStep (s : State) : State × Option structA :=
  if s.bStart then
    match s.vec with
    | [] => (s, none)
    | x :: t => ({ s with vec := t }, some x)
  else (s, none)

/-- The state part of one worker iteration. -/
def stepState (s : State) : State := (processStep s).1

end IntfA_Rx

namespace IntfB_Tx

/-- State of class `IntfB_Tx` (TestProjects/SampleApp/src/InterfaceB/IntfB_tx.h). -/
structure State where
  bStart : Bool
  vec : List structB
deriving Repr, DecidableEq

/-- Embeds `IntfB_Tx::IntfB_Tx() : bStart{ false }, vec{} {}`. -/
def construct : State := { bStart := false, vec := [] }

/-- Embeds `IntfB_Tx::init`: `vec.clear(); bStart = true;` then spawns the detached
worker thread and returns `true`. -/
def init (s : State) : State × Bool :=
  ({ s with vec := [], bStart := true }, true)

/-- Embeds `IntfB_Tx::close`: `bStart = false; return true;`. -/
def close (s : State) : State × Bool :=
  ({ s with bStart := false }, true)

/-- Embeds `IntfB_Tx::addToQueue(structB& data)` (IntfB_tx.h, lines 16-19): under the
lock, `vec.push_back(data)`; the argument is not modified. -/
def addToQueue (s : State) (data : structB) : State × structB :=
  ({ s with vec := s.vec ++ [data] }, data)

/-- Embeds `IntfB_Tx::getStats`: `return vec.size();`. -/
def getStats (s : State) : Int := (s.vec.length : Int)

/-- One iteration of the worker loop `IntfB_Tx::process`. -/
def processStep (s : State) : State × Option structB :=
  if s.bStart then
    match s.vec with
    | [] => (s, none)
    | x :: t => ({ s with vec := t }, some x)
  else (s, none)

end IntfB_Tx

namespace IntfB_Rx

/-- State of class `IntfB_Rx` (TestProjects/SampleApp/src/InterfaceB/IntfB_rx.h,
implementation IntfB_rx.cpp). -/
structure State where
  bStart : Bool
  vec : List structB
deriving Repr, DecidableEq

/-- Embeds `IntfB_Rx::IntfB_Rx() : bStart{ false }, vec{} {}`. -/
def construct : State := { bStart := false, vec := [] }

/-- Embeds `IntfB_Rx::init`: `vec.clear(); bStart = true;` then spawns the detached
worker thread and returns `true`. -/
def init (s : State) : State × Bool :=
  ({ s with vec := [], bStart := true }, true)

/-- Embeds `IntfB_Rx::close`: `bStart = false; return true;`. -/
def close (s : State) : State × Bool :=
  ({ s with bStart := false }, true)

/-- Embeds `IntfB_Rx::addToQueue(structB& data)` (IntfB_rx.cpp, lines 38-41): under
the lock, `vec.push_back(data)`; the argument is not modified. -/
def addToQueue (s : State) (data : structB) : State × structB :=
  ({ s with vec := s.vec ++ [data] }, data)

/-- Embeds `IntfB_Rx::getStats`: `return vec.size();`. -/
def getStats (s : State) : Int := (s.vec.length : Int)

/-- One iteration of the worker loop `IntfB_Rx::process` (IntfB_rx.cpp, lines
26-36). -/
def processStep (s : State) : State × Option structB :=
  if s.bStart then
    match s.vec with
    | [] => (s, none)
    | x :: t => ({ s with vec := t }, some x)
  else (s, none)

/-- The sequence of items the worker removes (and discards) over `n`
successive iterations of `IntfB_Rx::process`. -/
def drainTrace : State → Nat → List structB
  | _, 0 => []
  | s, n + 1 =>
    let r := processStep s
    r.2.toList ++ drainTrace r.1 n

end IntfB_Rx

namespace InterfaceA

/-- State of class `InterfaceA` (sampleCpp/SampleApp/src/InterfaceA): members
`IntfA_Tx intfTx; IntfA_Rx intfRx;`. -/
structure State where
  intfTx : IntfA_Tx.State
  intfRx : IntfA_Rx.State
deriving Repr, DecidableEq

/-- Embeds `InterfaceA::InterfaceA() { }`: both lane members are default-constructed. -/
def construct : State :=
  { intfTx := IntfA_Tx.construct, intfRx := IntfA_Rx.construct }

/-- Embeds `InterfaceA::InterfaceA(const InterfaceA&) { }` (InterfaceA.cpp, line 7):
the source object is ignored and both lane members are default-constructed. -/
def copyConstruct (_ : State) : State := construct

/-- Embeds `InterfaceA InterfaceA::operator=(const InterfaceA&) { return *this; }`
(InterfaceA.cpp, line 9): mutates nothing; `*this` is returned by value, which
invokes the copy constructor on it. -/
def assign (thisState : State) (_ : State) : State × State :=
  (thisState, copyConstruct thisState)

/-- Embeds `InterfaceA::init` (InterfaceA.cpp, lines 11-15): `intfTx.init(); return
true;` — only the transmit lane is initialized. -/
def init (s : State) : State × Bool :=
  ({ s with intfTx := (IntfA_Tx.init s.intfTx).1 }, true)

/-- Embeds `InterfaceA::close` (InterfaceA.cpp, lines 17-20): `intfTx.close();` —
only the transmit lane is closed. -/
def close (s : State) : State :=
  { s with intfTx := (IntfA_Tx.close s.intfTx).1 }

/-- Embeds `InterfaceA::addToTx`: `intfTx.addToQueue(data);`. -/
def addToTx (s : State) (data : structA) : State × structA :=
  let r := IntfA_Tx.addToQueue s.intfTx data
  ({ s with intfTx := r.1 }, r.2)

/-- Embeds `InterfaceA::addToRx`: `intfRx.addToQueue(data);`. -/
def addToRx (s : State) (data : structA) : State × structA :=
  let r := IntfA_Rx.addToQueue s.intfRx data
  ({ s with intfRx := r.1 }, r.2)

/-- Embeds `InterfaceA::getTxStats`: `return intfTx.getStats();`. -/
def getTxStats (s : State) : Int := IntfA_Tx.getStats s.intfTx

/-- Embeds `InterfaceA::getRxStats`: `return intfRx.getStats();`. -/
def getRxStats (s : State) : Int := IntfA_Rx.getStats s.intfRx

end InterfaceA

namespace InterfaceB

/-- State of class `InterfaceB`
(TestProjects/SampleApplication/SampleApp/src/InterfaceB/InterfaceB.h): members
`IntfB_Tx intfTx; IntfB_Rx intfRx;`. -/
structure State where
  intfTx : IntfB_Tx.State
  intfRx : IntfB_Rx.State
deriving Repr, DecidableEq

/-- Embeds `InterfaceB::InterfaceB() {}`: both lane members are default-constructed. -/
def construct : State :=
  { intfTx := IntfB_Tx.construct, intfRx := IntfB_Rx.construct }

/-- Embeds `InterfaceB::InterfaceB(const InterfaceB&) {}` (InterfaceB.cpp, line 7):
the source object is ignored and both lane members are default-constructed. -/
def copyConstruct (_ : State) : State := construct

/-- Embeds `InterfaceB InterfaceB::operator=(const InterfaceB&) { return *this; }`
(InterfaceB.cpp, line 9). -/
def assign (thisState : State) (_ : State) : State × State :=
  (thisState, copyConstruct thisState)

/-- Embeds `InterfaceB::init` (InterfaceB.cpp, lines 11-15): `intfTx.init(); return
true;` — only the transmit lane is initialized. -/
def init (s : State) : State × Bool :=
  ({ s with intfTx := (IntfB_Tx.init s.intfTx).1 }, true)

/-- Embeds `InterfaceB::close` (InterfaceB.cpp, lines 17-20): `intfTx.close();` —
only the transmit lane is closed. -/
def close (s : State) : State :=
  { s with intfTx := (IntfB_Tx.close s.intfTx).1 }

/-- Embeds `InterfaceB::addToTx`: `intfTx.addToQueue(data);`. -/
def addToTx (s : State) (data : structB) : State × structB :=
  let r := IntfB_Tx.addToQueue s.intfTx data
  ({ s with intfTx := r.1 }, r.2)

/-- Embeds `InterfaceB::addToRx`: `intfRx.addToQueue(data);`. -/
def addToRx (s : State) (data : structB) : State × structB :=
  let r := IntfB_Rx.addToQueue s.intfRx data
  ({ s with intfRx := r.1 }, r.2)

/-- Embeds `InterfaceB::getTxStats`: `return intfTx.getStats();`. -/
def getTxStats (s : State) : Int := IntfB_Tx.getStats s.intfTx

/-- Embeds `InterfaceB::getRxStats`: `return intfRx.getStats();`. -/
def getRxStats (s : State) : Int := IntfB_Rx.getStats s.intfRx

end InterfaceB

namespace ProgramApp

/-- State of class `ProgramApp`
(TestProjects/SampleApp/src/ProgramApp/ProgramApp.cpp): members
`InterfaceA a; InterfaceB b; bool bStart;`. -/
structure State where
  a : InterfaceA.State
  b : InterfaceB.State
  bStart : Bool
deriving Repr, DecidableEq

/-- Embeds `ProgramApp::ProgramApp(InterfaceA a1, InterfaceB b1) : a{ a1 }, b{ b1 },
bStart{ false } {}` (ProgramApp.cpp, lines 4-7).  The parameters are passed by
value, so the caller's facades are copy-constructed into `a1`/`b1`, and the
member initializers copy-construct again. -/
def construct (a1 : InterfaceA.State) (b1 : InterfaceB.State) : State :=
  { a := InterfaceA.copyConstruct (InterfaceA.copyConstruct a1),
    b := InterfaceB.copyConstruct (InterfaceB.copyConstruct b1),
    bStart := false }

/-- One iteration of the supervisor loop `ProgramApp::run`: polls all four
statistics (pure reads) and sleeps 1000 ms; the state is unchanged. -/
def runStep (s : State) : State × (Int × Int × Int × Int) :=
  (s, (InterfaceA.getRxStats s.a, InterfaceA.getTxStats s.a,
       InterfaceB.getRxStats s.b, InterfaceB.getTxStats s.b))

end ProgramApp

/-! Helper lemmas about the embedded operations. -/

/-- Folding `IntfB_Rx.addToQueue` over a list of items appends them in order at
the tail and leaves the running flag alone. -/
theorem IntfB_Rx.foldl_addToQueue (xs : List structB) (t : IntfB_Rx.State) :
    (xs.foldl (fun u x => (IntfB_Rx.addToQueue u x).1) t).vec = t.vec ++ xs ∧
    (xs.foldl (fun u x => (IntfB_Rx.addToQueue u x).1) t).bStart = t.bStart := by
  induction xs generalizing t with
  | nil => simp
  | cons x xs ih =>
    have h := ih ((IntfB_Rx.addToQueue t x).1)
    simpa [IntfB_Rx.addToQueue] using h

/-- While the running flag is set, the worker's removal trace over `n`
iterations is the first `n` buffered items, in buffer order. -/
theorem IntfB_Rx.drainTrace_eq_take (n : Nat) (s : IntfB_Rx.State)
    (h : s.bStart = true) :
    IntfB_Rx.drainTrace s n = s.vec.take n := by
  induction n generalizing s with
  | zero => simp [IntfB_Rx.drainTrace]
  | succ n ih =>
    cases hv : s.vec with
    | nil =>
      have hs : IntfB_Rx.processStep s = (s, none) := by
        simp [IntfB_Rx.processStep, h, hv]
      simp [IntfB_Rx.drainTrace, hs, ih s h, hv]
    | cons x tl =>
      have hs : IntfB_Rx.processStep s = ({ s with vec := tl }, some x) := by
        simp [IntfB_Rx.processStep, h, hv]
      have ht : IntfB_Rx.drainTrace { s with vec := tl } n = tl.take n := ih _ h
      simp [IntfB_Rx.drainTrace, hs, ht, hv]

/-- While the running flag is set, one worker iteration of `IntfA_Rx` replaces
the buffer by its tail. -/
theorem IntfA_Rx.stepState_eq_tail (s : IntfA_Rx.State) (h : s.bStart = true) :
    IntfA_Rx.stepState s = { s with vec := s.vec.tail } := by
  cases hv : s.vec with
  | nil =>
    cases s
    simp_all [IntfA_Rx.stepState, IntfA_Rx.processStep]
  | cons x tl =>
    simp [IntfA_Rx.stepState, IntfA_Rx.processStep, h, hv]

/-- While the running flag is set, `n` worker iterations of `IntfA_Rx` drop the
first `n` buffered items. -/
theorem IntfA_Rx.stepState_iterate (n : Nat) (s : IntfA_Rx.State)
    (h : s.bStart = true) :
    IntfA_Rx.stepState^[n] s = { s with vec := s.vec.drop n } := by
  induction n generalizing s with
  | zero =>
    cases s
    simp
  | succ n ih =>
    rw [Function.iterate_succ_apply, IntfA_Rx.stepState_eq_tail s h]
    have := ih { s with vec := s.vec.tail } h
    rw [this]
    cases hv : s.vec <;> simp

/-! Theorems settling the claims. -/

/-- C1: the claim says `init()` initializes and `close()` closes both owned
lanes of a facade.  The code (`InterfaceA.cpp` / `InterfaceB.cpp`) calls only
`intfTx.init()` and `intfTx.close()`: for every facade state, the receive lane
is bit-for-bit untouched by `init` (its buffer is not cleared, its running flag
stays `false`) and by `close` (its running flag stays as it was), while `init`
still returns `true`. -/
theorem facade_init_close_touch_only_tx
    (sa : InterfaceA.State) (sb : InterfaceB.State) :
    ((InterfaceA.init sa).1.intfRx = sa.intfRx ∧ (InterfaceA.init sa).2 = true ∧
     (InterfaceA.close sa).intfRx = sa.intfRx) ∧
    ((InterfaceB.init sb).1.intfRx = sb.intfRx ∧ (InterfaceB.init sb).2 = true ∧
     (InterfaceB.close sb).intfRx = sb.intfRx) :=
  ⟨⟨rfl, rfl, rfl⟩, ⟨rfl, rfl, rfl⟩⟩

/-- C2: `IntfA_Tx::addToQueue` applies Rule Set 2 exactly once before
appending: when the tested field `a1` is even, the companion field `a2` is
incremented by 1.0, otherwise decremented by 1.0, and the item so transformed
is appended at the tail (the transformed value is also written back through the
by-reference argument). -/
theorem intfA_Tx_addToQueue_rule2 (s : IntfA_Tx.State) (d : structA) :
    IntfA_Tx.addToQueue s d =
      ({ s with vec := s.vec ++
          [if Even d.a1 then { d with a2 := d.a2 + 1 } else { d with a2 := d.a2 - 1 }] },
       if Even d.a1 then { d with a2 := d.a2 + 1 } else { d with a2 := d.a2 - 1 }) := by
  by_cases h : Even d.a1
  · have h2 : d.a1 % 2 = 0 := Int.even_iff.mp h
    simp [IntfA_Tx.addToQueue, h, h2]
  · have h2 : ¬ d.a1 % 2 = 0 := fun hc => h (Int.even_iff.mpr hc)
    simp [IntfA_Tx.addToQueue, h, h2]

/-- C3: `IntfA_Rx::addToQueue` applies Rule Set 1 exactly once before
appending: when the tested field `a2` is negative, the companion field `a1` is
incremented by 1, otherwise decremented by 1; in particular, after `init` on a
freshly constructed lane, enqueueing `{a1 := 1, a2 := -3}` leaves the single
buffered item with `a1 = 2` and `length() = 1`. -/
theorem intfA_Rx_addToQueue_rule1_scenario :
    (∀ (s : IntfA_Rx.State) (d : structA),
      IntfA_Rx.addToQueue s d =
        ({ s with vec := s.vec ++
            [if d.a2 < 0 then { d with a1 := d.a1 + 1 } else { d with a1 := d.a1 - 1 }] },
         if d.a2 < 0 then { d with a1 := d.a1 + 1 } else { d with a1 := d.a1 - 1 })) ∧
    ((IntfA_Rx.addToQueue (IntfA_Rx.init IntfA_Rx.construct).1 { a1 := 1, a2 := -3 }).1.vec
        = [{ a1 := 2, a2 := -3 }] ∧
     IntfA_Rx.getStats (IntfA_Rx.addToQueue (IntfA_Rx.init IntfA_Rx.construct).1
        { a1 := 1, a2 := -3 }).1 = 1) := by
  refine ⟨fun s d => rfl, ?_, rfl⟩
  have h3 : ((-3 : Rat) < 0) := by norm_num
  simp [IntfA_Rx.addToQueue, IntfA_Rx.init, IntfA_Rx.construct, h3]

/-- C4: FIFO discipline on the `IntfB_Rx` lane: enqueueing `x1 … xn` on a
freshly initialized lane with no interleaved worker drains leaves
`length() = n`, and the worker's next `n` iterations remove exactly
`x1 … xn` in that order. -/
theorem intfB_Rx_fifo_discipline (xs : List structB) :
    IntfB_Rx.getStats
      (xs.foldl (fun u x => (IntfB_Rx.addToQueue u x).1)
        (IntfB_Rx.init IntfB_Rx.construct).1) = (xs.length : Int) ∧
    IntfB_Rx.drainTrace
      (xs.foldl (fun u x => (IntfB_Rx.addToQueue u x).1)
        (IntfB_Rx.init IntfB_Rx.construct).1) xs.length = xs := by
  have h := IntfB_Rx.foldl_addToQueue xs (IntfB_Rx.init IntfB_Rx.construct).1
  have hvec : (xs.foldl (fun u x => (IntfB_Rx.addToQueue u x).1)
      (IntfB_Rx.init IntfB_Rx.construct).1).vec = xs := by
    simpa [IntfB_Rx.init, IntfB_Rx.construct] using h.1
  have hrun : (xs.foldl (fun u x => (IntfB_Rx.addToQueue u x).1)
      (IntfB_Rx.init IntfB_Rx.construct).1).bStart = true := by
    simpa [IntfB_Rx.init, IntfB_Rx.construct] using h.2
  constructor
  · simp [IntfB_Rx.getStats, hvec]
  · rw [IntfB_Rx.drainTrace_eq_take xs.length _ hrun, hvec, List.take_length]

/-- C5: copying a facade duplicates none of its buffered items: a
copy-constructed facade has empty lane buffers and both stats read 0 whatever
the source held; assignment mutates nothing of the target; and the supervisor,
taking its two facades by value, starts with all four of its stats at 0,
independently of the caller's facades. -/
theorem facade_copy_no_buffer_duplication
    (sa t : InterfaceA.State) (sb u : InterfaceB.State) :
    ((InterfaceA.copyConstruct sa).intfTx.vec = [] ∧
     (InterfaceA.copyConstruct sa).intfRx.vec = [] ∧
     InterfaceA.getTxStats (InterfaceA.copyConstruct sa) = 0 ∧
     InterfaceA.getRxStats (InterfaceA.copyConstruct sa) = 0 ∧
     (InterfaceA.assign t sa).1 = t) ∧
    ((InterfaceB.copyConstruct sb).intfTx.vec = [] ∧
     (InterfaceB.copyConstruct sb).intfRx.vec = [] ∧
     InterfaceB.getTxStats (InterfaceB.copyConstruct sb) = 0 ∧
     InterfaceB.getRxStats (InterfaceB.copyConstruct sb) = 0 ∧
     (InterfaceB.assign u sb).1 = u) ∧
    (InterfaceA.getTxStats (ProgramApp.construct sa sb).a = 0 ∧
     InterfaceA.getRxStats (ProgramApp.construct sa sb).a = 0 ∧
     InterfaceB.getTxStats (ProgramApp.construct sa sb).b = 0 ∧
     InterfaceB.getRxStats (ProgramApp.construct sa sb).b = 0) :=
  ⟨⟨rfl, rfl, rfl, rfl, rfl⟩, ⟨rfl, rfl, rfl, rfl, rfl⟩, ⟨rfl, rfl, rfl, rfl⟩⟩

/-- C6: `IntfB_Tx::addToQueue` is total and never rejects: from every lane
state (running flag set or not) and every item, it appends the item at the tail
of the buffer, leaves the item unchanged, and `length()` grows by exactly
one. -/
theorem intfB_Tx_addToQueue_total_append (s : IntfB_Tx.State) (d : structB) :
    IntfB_Tx.addToQueue s d = ({ s with vec := s.vec ++ [d] }, d) ∧
    IntfB_Tx.getStats (IntfB_Tx.addToQueue s d).1 = IntfB_Tx.getStats s + 1 := by
  refine ⟨rfl, ?_⟩
  simp [IntfB_Tx.addToQueue, IntfB_Tx.getStats]

/-- C7: drain liveness of the `IntfA_Rx` worker: while the running flag is set
(as it is after `init`), one worker iteration removes exactly the head item
when the buffer is non-empty and nothing when it is empty, and after as many
iterations as there are buffered items — with no further enqueues — `length()`
has reached 0. -/
theorem intfA_Rx_drain_liveness (s : IntfA_Rx.State) (h : s.bStart = true) :
    ((IntfA_Rx.processStep s).1.vec = s.vec.tail ∧
     (IntfA_Rx.processStep s).2 = s.vec.head?) ∧
    IntfA_Rx.getStats (IntfA_Rx.stepState^[s.vec.length] s) = 0 := by
  refine ⟨⟨?_, ?_⟩, ?_⟩
  · have := IntfA_Rx.stepState_eq_tail s h
    simpa [IntfA_Rx.stepState] using congrArg IntfA_Rx.State.vec this
  · cases hv : s.vec <;> simp [IntfA_Rx.processStep, h, hv]
  · rw [IntfA_Rx.stepState_iterate s.vec.length s h]
    simp [IntfA_Rx.getStats]

/-- Witness for C7 at a concrete running lane holding two items. -/
theorem intfA_Rx_drain_liveness_witness :
    ({ bStart := true, vec := [{ a1 := 0, a2 := 0 }, { a1 := 5, a2 := 7 }] } :
        IntfA_Rx.State).bStart = true ∧
    IntfA_Rx.getStats
      (IntfA_Rx.stepState^[2]
        ({ bStart := true, vec := [{ a1 := 0, a2 := 0 }, { a1 := 5, a2 := 7 }] } :
          IntfA_Rx.State)) = 0 :=
  ⟨rfl, (intfA_Rx_drain_liveness
      { bStart := true, vec := [{ a1 := 0, a2 := 0 }, { a1 := 5, a2 := 7 }] } rfl).2⟩

/-- C8: `close` is non-draining and always succeeds, on both cited lanes: from
every state it returns `true`, clears the running flag, and leaves the buffer —
hence `length()` — unchanged. -/
theorem close_nondraining_succeeds (sa : IntfA_Rx.State) (sb : IntfB_Tx.State) :
    ((IntfA_Rx.close sa).2 = true ∧ (IntfA_Rx.close sa).1.bStart = false ∧
     (IntfA_Rx.close sa).1.vec = sa.vec ∧
     IntfA_Rx.getStats (IntfA_Rx.close sa).1 = IntfA_Rx.getStats sa) ∧
    ((IntfB_Tx.close sb).2 = true ∧ (IntfB_Tx.close sb).1.bStart = false ∧
     (IntfB_Tx.close sb).1.vec = sb.vec ∧
     IntfB_Tx.getStats (IntfB_Tx.close sb).1 = IntfB_Tx.getStats sb) :=
  ⟨⟨rfl, rfl, rfl, rfl⟩, ⟨rfl, rfl, rfl, rfl⟩⟩

/-- C9: the two non-transform lanes enqueue the item exactly as given: both
`IntfB_Rx::addToQueue` and `IntfB_Tx::addToQueue` append the argument unchanged
at the tail and write nothing back into the caller's item. -/
theorem intfB_addToQueue_appends_unchanged
    (sr : IntfB_Rx.State) (st : IntfB_Tx.State) (d : structB) :
    IntfB_Rx.addToQueue sr d = ({ sr with vec := sr.vec ++ [d] }, d) ∧
    IntfB_Tx.addToQueue st d = ({ st with vec := st.vec ++ [d] }, d) :=
  ⟨rfl, rfl⟩

/-- C10: the two transform lanes write the transformed item back through the
caller's reference: after `addToQueue` returns, the caller's item is exactly
the appended buffer entry; the receive lane changed only `a1` (by ±1) and the
transmit lane changed only `a2` (by ±1.0). -/
theorem intfA_addToQueue_writes_back_transformed
    (sr : IntfA_Rx.State) (st : IntfA_Tx.State) (d : structA) :
    ((IntfA_Rx.addToQueue sr d).1.vec = sr.vec ++ [(IntfA_Rx.addToQueue sr d).2] ∧
     (IntfA_Rx.addToQueue sr d).2.a1 ≠ d.a1 ∧
     (IntfA_Rx.addToQueue sr d).2.a2 = d.a2) ∧
    ((IntfA_Tx.addToQueue st d).1.vec = st.vec ++ [(IntfA_Tx.addToQueue st d).2] ∧
     (IntfA_Tx.addToQueue st d).2.a2 ≠ d.a2 ∧
     (IntfA_Tx.addToQueue st d).2.a1 = d.a1) := by
  refine ⟨⟨rfl, ?_, ?_⟩, ⟨rfl, ?_, ?_⟩⟩
  · by_cases h : d.a2 < 0 <;> simp [IntfA_Rx.addToQueue, h]
  · by_cases h : d.a2 < 0 <;> simp [IntfA_Rx.addToQueue, h]
  · by_cases h : d.a1 % 2 = 0 <;> simp [IntfA_Tx.addToQueue, h]
  · by_cases h : d.a1 % 2 = 0 <;> simp [IntfA_Tx.addToQueue, h]
